import Mathlib

/-!
Shallow embedding of the matching / scoring / deduplication / send-scheduling
engine of the ASAP Jobs automation repository (`match_and_email.py` and the
`api/match.py` entry point), together with theorems settling the claims about
its specification.

Python strings are modelled as Lean `String`; the Python string methods used
by the engine (`lower`, `strip`, `replace`, `split`, substring `in`) are
embedded over `List Char` below.  Machine floats only appear as day counts and
salary values obtained by exact division; they are modelled by `Rat`.
Timestamps are modelled as epoch seconds (`Int`); `datetime.now(timezone.utc)`
becomes an explicit `now : Int` parameter.
-/

namespace AsapJobs

/-- The upper-to-lower table of ASCII letters. -/
def lowerPairs : List (Char × Char) :=
  [('A','a'), ('B','b'), ('C','c'), ('D','d'), ('E','e'), ('F','f'),
   ('G','g'), ('H','h'), ('I','i'), ('J','j'), ('K','k'), ('L','l'),
   ('M','m'), ('N','n'), ('O','o'), ('P','p'), ('Q','q'), ('R','r'),
   ('S','s'), ('T','t'), ('U','u'), ('V','v'), ('W','w'), ('X','x'),
   ('Y','y'), ('Z','z')]

/-- ASCII lower-casing of one character, as `str.lower` acts on ASCII text
(the engine's data is ASCII). -/
def lowerChar (c : Char) : Char :=
  match lowerPairs.find? (fun p => p.1 = c) with
  | some p => p.2
  | none => c

/-- The whitespace characters removed by Python's `str.strip()`. -/
def isPySpace (c : Char) : Bool :=
  c = ' ' || c = '\t' || c = '\n' || c = '\r' || c = '\x0b' || c = '\x0c'

/-- Model of `str.strip()` on a character list: drop whitespace from both ends. -/
def stripList (l : List Char) : List Char :=
  ((l.dropWhile isPySpace).reverse.dropWhile isPySpace).reverse

/-- Model of `str.lower()`. -/
def pyLower (s : String) : String := ⟨s.data.map lowerChar⟩

/-- Model of `str.strip()`. -/
def pyStrip (s : String) : String := ⟨stripList s.data⟩

/-- Does `pat` start the list `l`? -/
def startsWithList : List Char → List Char → Bool
  | [], _ => true
  | _ :: _, [] => false
  | a :: as, b :: bs => a = b && startsWithList as bs

/-- Python's substring test `needle in hay` on character lists. -/
def containsList (needle : List Char) : List Char → Bool
  | [] => startsWithList needle []
  | c :: t => startsWithList needle (c :: t) || containsList needle t

/-- Python's `needle in hay` on strings. -/
def pyContains (needle hay : String) : Bool := containsList needle.data hay.data

/-- Model of `str.replace(old, new)`: replace all non-overlapping occurrences of a
non-empty `old`, scanning left to right (for empty `old` Python inserts, a
case the engine never exercises; we return the string unchanged). -/
def replaceFuel (old rep : List Char) : Nat → List Char → List Char
  | 0, s => s
  | _ + 1, [] => []
  | fuel + 1, c :: t =>
    if startsWithList old (c :: t) then
      rep ++ replaceFuel old rep fuel ((c :: t).drop old.length)
    else
      c :: replaceFuel old rep fuel t

/-- Model of `str.replace` with a non-empty pattern; the fuel `s.length` suffices
because each step consumes at least one character of `s`. -/
def replaceList (old rep s : List Char) : List Char :=
  if old = [] then s else replaceFuel old rep s.length s

/-- Model of `str.replace` on strings. -/
def pyReplace (s old rep : String) : String := ⟨replaceList old.data rep.data s.data⟩

/-- Python's truthiness-based `x or y` on strings: the first operand when it
is non-empty, otherwise the second. -/
def pyOr (a b : String) : String := if a = "" then b else a

/-- Split a character list at every occurrence of the character `c`, keeping
empty pieces, as Python's `str.split(sep)` does for a one-character `sep`. -/
def splitChar (c : Char) : List Char → List (List Char)
  | [] => [[]]
  | d :: t =>
    match splitChar c t with
    | [] => [[]]
    | h :: r => if d = c then [] :: h :: r else (d :: h) :: r

/-- Model of `str.split(",")` on strings. -/
def pySplitComma (s : String) : List String := (splitChar ',' s.data).map (⟨·⟩)

/-! ### ISO-8601 timestamps

`parse_iso` calls `datetime.fromisoformat` after replacing `"Z"` by
`"+00:00"`.  We model the canonical aware-UTC form the system itself writes
with `iso_now()`: `YYYY-MM-DDThh:mm:ss[.ffffff]+00:00` (fractional seconds
are accepted and ignored; the model's granularity is one second).  Any other
shape — in particular naive or non-UTC timestamps never produced by the
system — is treated as unparsable.  The result is epoch seconds. -/

/-- Numeric value of a decimal digit character. -/
def digitVal (c : Char) : Nat := c.toNat - 48

/-- Read exactly `n` decimal digits from the front of the list, returning
their value and the rest. -/
def takeDigits : Nat → List Char → Option (Nat × List Char)
  | 0, l => some (0, l)
  | Nat.succ k, [] => none
  | Nat.succ k, c :: t =>
    if c.isDigit then
      (takeDigits k t).map (fun p => (digitVal c * 10 ^ k + p.1, p.2))
    else none

/-- Expect a specific character at the front of the list. -/
def expectChar (c : Char) : List Char → Option (List Char)
  | [] => none
  | d :: t => if d = c then some t else none

/-- Drop an optional fractional-seconds part `.d+`. -/
def skipFraction : List Char → Option (List Char)
  | '.' :: t =>
    let rest := t.dropWhile Char.isDigit
    if t.length = rest.length then none else some rest
  | l => some l

/-- Is `y` a Gregorian leap year? -/
def isLeapYear (y : Nat) : Bool := (y % 4 = 0 && y % 100 ≠ 0) || y % 400 = 0

/-- Number of days in month `m` of year `y`. -/
def daysInMonth (y m : Nat) : Nat :=
  if m = 2 then (if isLeapYear y then 29 else 28)
  else if m = 4 || m = 6 || m = 9 || m = 11 then 30
  else 31

/-- Days in the months of year `y` strictly before month `m`. -/
def daysBeforeMonth (y m : Nat) : Nat :=
  (List.range m).foldl (fun acc k => if 1 ≤ k then acc + daysInMonth y k else acc) 0

/-- Days in the proleptic Gregorian calendar strictly before year `y`
(counting from year 1). -/
def daysBeforeYear (y : Nat) : Nat :=
  365 * (y - 1) + (y - 1) / 4 - (y - 1) / 100 + (y - 1) / 400

/-- Day number of a civil date, counted from 0001-01-01 as day 0. -/
def civilDay (y m d : Nat) : Nat := daysBeforeYear y + daysBeforeMonth y m + (d - 1)

/-- Day number of the epoch 1970-01-01. -/
def epochCivilDay : Nat := civilDay 1970 1 1

/-- Parse the canonical aware-UTC ISO form into epoch seconds. -/
def parseIsoChars (l : List Char) : Option Int := do
  let (y, l) ← takeDigits 4 l
  let l ← expectChar '-' l
  let (mo, l) ← takeDigits 2 l
  let l ← expectChar '-' l
  let (dy, l) ← takeDigits 2 l
  let l ← expectChar 'T' l
  let (h, l) ← takeDigits 2 l
  let l ← expectChar ':' l
  let (mi, l) ← takeDigits 2 l
  let l ← expectChar ':' l
  let (se, l) ← takeDigits 2 l
  let l ← skipFraction l
  match l with
  | ['+', '0', '0', ':', '0', '0'] =>
    if 1 ≤ y && 1 ≤ mo && mo ≤ 12 && 1 ≤ dy && dy ≤ daysInMonth y mo
        && h ≤ 23 && mi ≤ 59 && se ≤ 59 then
      some (((civilDay y mo dy : Int) - (epochCivilDay : Int)) * 86400
        + h * 3600 + mi * 60 + se)
    else none
  | _ => none

/-- Model of `parse_iso`: empty string is `None`; `"Z"` is first rewritten to
`"+00:00"`; then the timestamp is parsed (see the model note above). -/
def parse_iso (dt_str : String) : Option Int :=
  if dt_str = "" then none
  else parseIsoChars (pyReplace dt_str "Z" "+00:00").data

/-- Model of `days_since`: fractional days between `now` and the parsed timestamp,
`9999` when the timestamp does not parse. -/
def days_since (now : Int) (dt_str : String) : Rat :=
  match parse_iso dt_str with
  | none => 9999
  | some t => mkRat (now - t) 86400

/-! ### Simple field parsers (`match_and_email.py`, general helpers) -/

/-- Model of `parse_csv`: split on commas, strip, lower-case, drop blank entries. -/
def parse_csv (value : String) : List String :=
  if value = "" then []
  else (pySplitComma value).filterMap (fun x =>
    if pyStrip x = "" then none else some (pyLower (pyStrip x)))

/-- Model of `bool_from_str` on the sheet's string cells (the `bool`/`None` branches of
the source collapse onto the string branch in this all-string model, where a
missing cell is the empty string). -/
def bool_from_str (value : String) : Bool :=
  let v := pyLower (pyStrip value)
  v = "true" || v = "1" || v = "yes" || v = "y"

/-- Model of `normalize_text`: strip then lower-case. -/
def normalize_text (s : String) : String := pyLower (pyStrip s)

/-- Value of a run of decimal digits. -/
def digitsToNat (l : List Char) : Nat := l.foldl (fun a c => a * 10 + digitVal c) 0

/-- An unsigned decimal literal with optional fractional part, as accepted by
Python's `float` (the engine's sheet data; scientific notation and the named
specials are not exercised and parse as `None` here). -/
def parseUnsignedDec (l : List Char) : Option Rat :=
  let ip := l.takeWhile Char.isDigit
  let rest := l.drop ip.length
  match rest with
  | [] => if ip = [] then none else some (digitsToNat ip)
  | '.' :: frac =>
    if frac.all Char.isDigit && (!ip.isEmpty || !frac.isEmpty) then
      some (mkRat (digitsToNat ip * 10 ^ frac.length + digitsToNat frac) (10 ^ frac.length))
    else none
  | _ => none

/-- A signed decimal literal. -/
def parseFloatChars : List Char → Option Rat
  | '+' :: t => parseUnsignedDec t
  | '-' :: t => (parseUnsignedDec t).map (fun r => -r)
  | l => parseUnsignedDec l

/-- Model of `parse_salary`: drop commas, strip, parse as a number; `None` on failure. -/
def parse_salary (value : String) : Option Rat :=
  parseFloatChars (pyStrip (pyReplace value "," "")).data

/-! ### Frequency logic -/

/-- Model of `_normalize_freq`: collapse the sheet / UI frequency strings into
`"daily"`, `"twice_weekly"` and `"weekly"`, `"daily"` being the fallback. -/
def normalize_freq (raw : String) : String :=
  if raw = "" then "daily"
  else if pyLower (pyStrip raw) = "2x" ∨ pyLower (pyStrip raw) = "2x per week"
      ∨ pyLower (pyStrip raw) = "2x/week" ∨ pyLower (pyStrip raw) = "twice_weekly"
      ∨ pyLower (pyStrip raw) = "2x_week" ∨ pyLower (pyStrip raw) = "twice weekly" then
    "twice_weekly"
  else if pyLower (pyStrip raw) = "weekly" then "weekly"
  else if pyLower (pyStrip raw) = "daily" then "daily"
  else "daily"

/-! ### Data model

All sheet cells are strings; a missing cell is the empty string (matching
`row.get(...) or ""` in the source). -/

/-- A job posting row of the Jobs sheet, as read by the matcher. -/
structure Job where
  title : String := ""
  company : String := ""
  location : String := ""
  remote_scope : String := ""
  job_roles : String := ""
  job_category : String := ""
  seniority : String := ""
  employment_type : String := ""
  tags : String := ""
  tech_stack : String := ""
  min_salary : String := ""
  max_salary : String := ""
  currency : String := ""
  high_salary : String := ""
  posted_at : String := ""
  ingested_at : String := ""
  source : String := ""
  url : String := ""
  apply_url : String := ""
  deriving DecidableEq, Repr

/-- A subscriber row of the Subscribers sheet. -/
structure Subscriber where
  email : String := ""
  first_name : String := ""
  job_roles : String := ""
  location_pref : String := ""
  experience_level : String := ""
  employment_type : String := ""
  high_salary_only : String := ""
  technologies_pref : String := ""
  languages_pref : String := ""
  company_pref : String := ""
  search_term : String := ""
  frequency : String := ""
  last_sent_at : String := ""
  deriving DecidableEq, Repr

/-- Model of `is_due_to_send`: frequency bucket plus days elapsed since
`last_sent_at`. -/
def is_due_to_send (now : Int) (sub : Subscriber) : Bool :=
  if normalize_freq sub.frequency = "daily" then
    decide (1 ≤ days_since now sub.last_sent_at)
  else if normalize_freq sub.frequency = "twice_weekly" then
    decide (3 ≤ days_since now sub.last_sent_at)
  else if normalize_freq sub.frequency = "weekly" then
    decide (7 ≤ days_since now sub.last_sent_at)
  else
    decide (1 ≤ days_since now sub.last_sent_at)

/-! ### Canonical roles / expansion -/

/-- Model of `CANONICAL_ROLE_GROUPS`: canonical role → synonym phrases, in the
source's insertion order. -/
def CANONICAL_ROLE_GROUPS : List (String × List String) :=
  [ ("software engineer",
      ["software engineer", "software developer", "swe",
       "backend engineer", "frontend engineer", "full-stack engineer",
       "full stack engineer", "mobile engineer",
       "devops engineer", "site reliability engineer", "sre",
       "platform engineer"]),
    ("backend engineer",
      ["backend engineer", "backend developer", "server engineer"]),
    ("frontend engineer",
      ["frontend engineer", "front-end engineer", "front end engineer", "ui engineer"]),
    ("full-stack engineer",
      ["full-stack engineer", "full stack engineer", "fullstack engineer"]),
    ("devops engineer",
      ["devops engineer", "site reliability engineer", "sre", "platform engineer"]),
    ("data engineer",
      ["data engineer", "analytics engineer", "data platform engineer"]),
    ("data scientist",
      ["data scientist", "ml engineer", "machine learning engineer"]),
    ("data analyst",
      ["data analyst", "business intelligence analyst", "bi analyst"]),
    ("product manager",
      ["product manager", "product owner", "product lead"]),
    ("product designer",
      ["product designer", "ux/ui designer", "ux designer", "ui designer"]),
    ("marketing manager",
      ["marketing manager", "digital marketing manager", "product marketing manager"]),
    ("growth marketer",
      ["growth marketer", "performance marketer", "paid media manager"]),
    ("content marketer",
      ["content marketer", "copywriter", "copy writer", "content writer"]),
    ("sales representative",
      ["sales representative", "sales dev rep", "sdr", "bdr", "inside sales"]),
    ("account executive",
      ["account executive", "ae"]),
    ("customer success manager",
      ["customer success manager", "customer success", "cs manager"]),
    ("support specialist",
      ["support specialist", "customer support", "technical support", "helpdesk"]),
    ("recruiter",
      ["recruiter", "talent acquisition", "talent partner"]),
    ("hr generalist",
      ["hr generalist", "hr specialist"]),
    ("people operations",
      ["people operations", "people ops", "people operations manager"]),
    ("project manager",
      ["project manager", "program manager", "delivery manager"]),
    ("operations manager",
      ["operations manager", "business operations", "ops manager"]),
    ("finance manager",
      ["finance manager", "fp&a manager", "financial analyst"]),
    ("accountant",
      ["accountant", "senior accountant"]),
    ("legal counsel",
      ["legal counsel", "corporate counsel", "attorney", "lawyer"]),
    ("founder / ceo", ["founder", "co-founder", "ceo"]),
    ("cto", ["cto", "chief technology officer"]),
    ("cpo", ["cpo", "chief product officer"]),
    ("coo", ["coo", "chief operating officer"]),
    ("other", ["other"]) ]

/-- Model of `expand_subscriber_roles`: tokenize the subscriber's CSV, map each token
into every canonical bucket whose name or synonym set holds it, and keep
unmatched tokens as-is.  (Python collects into a `set`; only membership is
ever queried, so a list with possible duplicates is an equivalent model.) -/
def expand_subscriber_roles (raw_roles : String) : List String :=
  if raw_roles = "" then []
  else
    (parse_csv raw_roles).foldl (fun acc token =>
      let hits := CANONICAL_ROLE_GROUPS.filter
        (fun p => token = p.1 || p.2.contains token)
      if hits.isEmpty then acc ++ [token] else acc ++ hits.map Prod.fst) []

/-- Model of `job_role_to_canonical`: the first canonical bucket whose name or synonym
set holds the normalized role, else the normalized role itself. -/
def job_role_to_canonical (job_role : String) : String :=
  if job_role = "" then ""
  else
    let jr := pyLower (pyStrip job_role)
    match CANONICAL_ROLE_GROUPS.find? (fun p => jr = p.1 || p.2.contains jr) with
    | some p => p.1
    | none => jr

/-! ### Matching helpers -/

/-- Model of `DAYS_BACK` (env default `"2"`). -/
def DAYS_BACK : Int := 2

/-- Model of `TOP_N_JOBS` (env default `"10"`). -/
def TOP_N_JOBS : Nat := 10

/-- Model of `job_is_recent`: posted or ingested within the last `DAYS_BACK` days. -/
def job_is_recent (now : Int) (job : Job) : Bool :=
  let cutoff := now - DAYS_BACK * 86400
  let posted := parse_iso job.posted_at
  let ingested := parse_iso job.ingested_at
  (match posted with | some p => decide (cutoff ≤ p) | none => false)
  || (match ingested with | some i => decide (cutoff ≤ i) | none => false)

/-- Model of `compute_job_fingerprint`: the cross-source dedupe key
`title::company::location`, lower-cased, with generic "remote" markers
stripped from the title (re-stripping after each removal, as the source
does). -/
def compute_job_fingerprint (job : Job) : String :=
  let title := normalize_text job.title
  let company := normalize_text job.company
  let location := normalize_text job.location
  let title := ["remote -", "remote/", "(remote)", "[remote]", "remote job", "remote"].foldl
    (fun t bad => pyStrip (pyReplace t bad "")) title
  title ++ "::" ++ company ++ "::" ++ location

/-- Model of `match_remote_scope`: accept only `global` / `country` / `regional`. -/
def match_remote_scope (job : Job) : Bool :=
  let scope := pyLower (pyStrip job.remote_scope)
  if scope = "" then false
  else scope = "global" || scope = "country" || scope = "regional"

/-- Model of `_location_pref_tokens`: split the preference on `/` and `,`, normalize a
few common aliases.  (A Python `set`; only membership-style queries are made,
so a list models it.) -/
def location_pref_tokens (pref : String) : List String :=
  if pref = "" then []
  else
    let tokens := (pySplitComma (pyReplace pref "/" ",")).filterMap (fun t =>
      if pyStrip t = "" then none else some (pyLower (pyStrip t)))
    tokens.map (fun t =>
      if t = "us" then "usa"
      else if t = "united states" then "usa"
      else if t = "united states of america" then "usa"
      else if t = "uk" then "united kingdom"
      else if t = "england" then "united kingdom"
      else if t = "scotland" then "united kingdom"
      else if t = "wales" then "united kingdom"
      else if t = "worldwide" then "anywhere"
      else if t = "remote" then "anywhere"
      else t)

/-- The region keyword table of `match_location`. -/
def regionKeywords : List (String × List String) :=
  [ ("europe", ["europe", "emea", "eu"]),
    ("latam", ["latam", "latin america"]),
    ("apac", ["apac", "asia pacific"]),
    ("africa", ["africa"]) ]

/-- Model of `match_location`: remote-scope gate plus preference-token matching
against the location text. -/
def match_location (job : Job) (location_pref : String) : Bool :=
  if !match_remote_scope job then false
  else
    let pref_tokens := location_pref_tokens location_pref
    let job_loc := normalize_text job.location
    let scope := pyLower (pyStrip job.remote_scope)
    if pref_tokens.isEmpty then true
    else if pref_tokens.contains "anywhere" then true
    else if scope = "global" then true
    else if regionKeywords.any (fun rk =>
        pref_tokens.contains rk.1 && rk.2.any (fun k => pyContains k job_loc)) then true
    else if pref_tokens.any (fun t => t ≠ "" && pyContains t job_loc) then true
    else if pref_tokens.any (fun t => t ≠ "" && pyContains t job_loc) then true
    else false

/-- Model of `match_roles`: subscriber's expanded canonical roles against the job's
canonical role, with a synonym bridge across groups. -/
def match_roles (job_roles sub_roles_raw : String) : Bool :=
  if sub_roles_raw = "" then true
  else if job_role_to_canonical job_roles = "" then false
  else if (expand_subscriber_roles sub_roles_raw).contains (job_role_to_canonical job_roles)
    then true
  else CANONICAL_ROLE_GROUPS.any (fun p =>
    p.2.contains (job_role_to_canonical job_roles) &&
    (expand_subscriber_roles sub_roles_raw).contains p.1)

/-- The title-keyword table of `match_experience`, in source order. -/
def experienceKeywords : List (String × List String) :=
  [ ("junior", ["junior", "jr "]),
    ("mid", ["mid", "intermediate"]),
    ("senior", ["senior", "sr ", "sr.", "lead"]),
    ("lead", ["lead", "principal", "staff"]),
    ("director", ["director", "head of"]),
    ("vp", ["vp ", "vice president"]) ]

/-- The keyword loop of `match_experience`: each level whose keywords hit the
title may accept; nothing in the loop rejects, and the fall-through is
`True`. -/
def experienceLoop (pref : String) (title : String) : List (String × List String) → Bool
  | [] => true
  | (level, words) :: rest =>
    if words.any (fun w => pyContains w title) then
      if pref = level then true
      else if pref = "senior" && (level = "senior" || level = "lead") then true
      else if pref = "lead" && (level = "lead" || level = "director") then true
      else if pref = "vp" && level = "vp" then true
      else experienceLoop pref title rest
    else experienceLoop pref title rest

/-- Model of `match_experience`: no preference passes; an explicit seniority label is
matched by substring containment of the preference; otherwise the title
keyword fallback, defaulting to pass. -/
def match_experience (job_seniority pref_exp job_title : String) : Bool :=
  if pref_exp = "" then true
  else if pyLower (pyStrip job_seniority) ≠ "" then
    pyContains (pyLower (pyStrip pref_exp)) (pyLower (pyStrip job_seniority))
  else
    experienceLoop (pyLower (pyStrip pref_exp)) (pyLower (pyStrip job_title))
      experienceKeywords

/-- Model of `match_employment`: pass when either side is unset, else substring
containment. -/
def match_employment (job_type pref_type : String) : Bool :=
  if pref_type = "" then true
  else if job_type = "" then true
  else pyContains (pyLower (pyStrip pref_type)) (pyLower (pyStrip job_type))

/-- Model of `match_high_salary`: when requested, honour the `high_salary` flag or
require the best available salary bound to reach 100 000. -/
def match_high_salary (job : Job) (high_salary_only : Bool) : Bool :=
  if !high_salary_only then true
  else if bool_from_str job.high_salary then true
  else
    let min_salary := parse_salary job.min_salary
    let max_salary := parse_salary job.max_salary
    match min_salary, max_salary with
    | none, none => false
    | some a, none => decide ((100000 : Rat) ≤ a)
    | none, some b => decide ((100000 : Rat) ≤ b)
    | some a, some b => decide ((100000 : Rat) ≤ max a b)

/-- Model of `match_tech_and_lang`: pass with no preferences; else require a non-empty
intersection of tech stack with preferred technologies or of tags with
preferred languages. -/
def match_tech_and_lang (job : Job) (sub : Subscriber) : Bool :=
  let tech_pref := parse_csv sub.technologies_pref
  let lang_pref := parse_csv sub.languages_pref
  if tech_pref.isEmpty && lang_pref.isEmpty then true
  else
    let job_tech := parse_csv job.tech_stack
    let job_tags := parse_csv job.tags
    if !tech_pref.isEmpty && !job_tech.isEmpty
        && job_tech.any (fun t => tech_pref.contains t) then true
    else if !lang_pref.isEmpty && !job_tags.isEmpty
        && job_tags.any (fun t => lang_pref.contains t) then true
    else if !tech_pref.isEmpty || !lang_pref.isEmpty then false
    else true

/-- Model of `match_company`: any preference substring inside the lower-cased company
name. -/
def match_company (job_company company_pref : String) : Bool :=
  if company_pref = "" then true
  else (parse_csv company_pref).any (fun p => pyContains p (pyLower job_company))

/-- Model of `match_search_term`: the lower-cased term inside the lower-cased
concatenation of title, company, tags and role text. -/
def match_search_term (job : Job) (term : String) : Bool :=
  if term = "" then true
  else
    let text := pyLower (job.title ++ " " ++ job.company ++ " " ++ job.tags
      ++ " " ++ job.job_roles)
    pyContains (pyLower term) text

/-- Model of `score_job`: the weighted relevance score, component by component in
source order (role, location, experience, employment, tech/language, company,
high-salary bonus, recency from `posted_at or ingested_at`, global
micro-bonus). -/
def score_job (now : Int) (job : Job) (sub : Subscriber) : Int :=
  (if match_roles job.job_roles sub.job_roles then 3 else 0)
  + (if match_location job sub.location_pref then 2 else 0)
  + (if match_experience job.seniority sub.experience_level job.title then 2 else 0)
  + (if match_employment job.employment_type sub.employment_type then 1 else 0)
  + (if match_tech_and_lang job sub then 1 else 0)
  + (if match_company job.company sub.company_pref then 1 else 0)
  + (if bool_from_str sub.high_salary_only && match_high_salary job true then 1 else 0)
  + (match parse_iso (pyOr job.posted_at (pyOr job.ingested_at "")) with
     | none => 0
     | some t =>
       if mkRat (now - t) 86400 ≤ 1 then 2
       else if mkRat (now - t) 86400 ≤ 2 then 1
       else 0)
  + (if pyLower (pyStrip job.remote_scope) = "global" then 1 else 0)

/-! ### The orchestrator (`main`)

`main` reads both sheets, restricts the job pool to recent, remote-eligible
postings, and walks the subscriber list.  Sheet I/O, console printing and the
dry-run send are external collaborators; the decision logic — who is skipped,
what is matched, recorded, ranked and truncated, and when `last_sent_at` is
written — is embedded below.  `iso_now()` becomes the explicit `nowIso`
string, and `datetime.now(timezone.utc)` the explicit `now`. -/

/-- Stable insert for a descending-by-score order: an element is placed
before the first strictly smaller score, so earlier pool elements precede
later ones with an equal score — exactly Python's stable
`sort(key=score, reverse=True)`. -/
def insertByScore (x : Int × Job) : List (Int × Job) → List (Int × Job)
  | [] => [x]
  | y :: t => if y.1 ≤ x.1 then x :: y :: t else y :: insertByScore x t

/-- Stable descending sort by score. -/
def sortByScoreDesc : List (Int × Job) → List (Int × Job)
  | [] => []
  | x :: t => insertByScore x (sortByScoreDesc t)

/-- The filter chain of `main`'s inner loop, in source order: the source's
sequence of `if not pred: continue` guards over pure predicates is exactly
this short-circuit conjunction. -/
def passesAllFilters (job : Job) (sub : Subscriber) : Bool :=
  match_location job sub.location_pref &&
  match_roles job.job_roles sub.job_roles &&
  match_experience job.seniority sub.experience_level job.title &&
  match_employment job.employment_type sub.employment_type &&
  match_high_salary job (bool_from_str sub.high_salary_only) &&
  match_tech_and_lang job sub &&
  match_company job.company sub.company_pref &&
  match_search_term job sub.search_term

/-- The inner per-subscriber loop of `main`: walk the candidate pool; skip a
posting whose fingerprint was already seen; run the filter chain; score;
discard non-positive scores; record the (score, posting) pair and mark its
fingerprint seen.  `seen` starts empty for every subscriber. -/
def collectMatches (now : Int) (sub : Subscriber) : List Job → List String → List (Int × Job)
  | [], _ => []
  | job :: rest, seen =>
    if seen.contains (compute_job_fingerprint job) then collectMatches now sub rest seen
    else if passesAllFilters job sub && !decide (score_job now job sub ≤ 0) then
      (score_job now job sub, job) ::
        collectMatches now sub rest (compute_job_fingerprint job :: seen)
    else collectMatches now sub rest seen

/-- The upfront pool restriction of `main`: recent jobs, then remote-eligible
jobs. -/
def recentRemotePool (now : Int) (jobs : List Job) : List Job :=
  (jobs.filter (job_is_recent now)).filter match_remote_scope

/-- The ranked, truncated digest content for one subscriber: survivors sorted
by score descending (stable), top `TOP_N_JOBS` kept. -/
def digestJobs (now : Int) (pool : List Job) (sub : Subscriber) : List Job :=
  ((sortByScoreDesc (collectMatches now sub pool [])).take TOP_N_JOBS).map Prod.snd

/-- One subscriber step of `main`'s loop, state-passing view: the subscriber
row is returned unchanged when it is skipped (no email, not due, or no
matches); after a successful send its `last_sent_at` cell is set to
`nowIso`. -/
def processSubscriber (now : Int) (nowIso : String) (pool : List Job)
    (sub : Subscriber) : Subscriber :=
  if sub.email = "" then sub
  else if !is_due_to_send now sub then sub
  else if collectMatches now sub pool [] = [] then sub
  else { sub with last_sent_at := nowIso }

/-- The body of `main`'s subscriber loop with its I/O boundary made explicit: the
`update_cell` write for a subscriber may raise (`updateOk` says for whom),
and — as in the source, which has no try/except inside the loop — a raised
exception propagates out of `main`, abandoning all later subscribers.  The
result is the final subscriber-sheet state on success, or the identity of the
failing update on the uncaught exception. -/
def mainLoop (now : Int) (nowIso : String) (updateOk : Subscriber → Bool)
    (pool : List Job) : List Subscriber → Except String (List Subscriber)
  | [] => Except.ok []
  | sub :: rest =>
    if sub.email = "" then (mainLoop now nowIso updateOk pool rest).map (sub :: ·)
    else if !is_due_to_send now sub then (mainLoop now nowIso updateOk pool rest).map (sub :: ·)
    else if collectMatches now sub pool [] = [] then
      (mainLoop now nowIso updateOk pool rest).map (sub :: ·)
    else if updateOk sub then
      (mainLoop now nowIso updateOk pool rest).map ({ sub with last_sent_at := nowIso } :: ·)
    else Except.error sub.email

/-- Entry point `main`: prefilter the pool, then run the subscriber loop.  The `/api/match`
handler (`api/match.py`) calls this inside its single try/except and turns an
uncaught exception into one HTTP 500 response for the whole run. -/
def runMain (now : Int) (nowIso : String) (updateOk : Subscriber → Bool)
    (jobs : List Job) (subs : List Subscriber) : Except String (List Subscriber) :=
  mainLoop now nowIso updateOk (recentRemotePool now jobs) subs

/-! ### Specification-side definitions

These definitions follow the spec's words, for comparison with the embedded
code; they are named so as not to be confused with the source functions. -/

/-- Due-to-send threshold in days per normalized frequency bucket, as the
spec states it: daily 1, twice_weekly 3, weekly 7. -/
def freqThreshold (bucket : String) : Rat :=
  if bucket = "twice_weekly" then 3
  else if bucket = "weekly" then 7
  else 1

/-- The recency bonus as claim C2 states it: computed from the more recent of
the posting's `posted_at` and `ingested_at` timestamps relative to `now`. -/
def specRecencyBonus (now : Int) (job : Job) : Int :=
  let best :=
    match parse_iso job.posted_at, parse_iso job.ingested_at with
    | some a, some b => some (max a b)
    | some a, none => some a
    | none, some b => some b
    | none, none => none
  match best with
  | none => 0
  | some t =>
    let age_days := mkRat (now - t) 86400
    if age_days ≤ 1 then 2 else if age_days ≤ 2 then 1 else 0

/-- The recency bonus the code actually implements (the amended claim C2):
computed from `posted_at` whenever that cell is non-empty — even when it is
older or unparsable — and from `ingested_at` only when `posted_at` is
empty. -/
def postedFirstRecencyBonus (now : Int) (job : Job) : Int :=
  match parse_iso (pyOr job.posted_at (pyOr job.ingested_at "")) with
  | none => 0
  | some t =>
    let age_days := mkRat (now - t) 86400
    if age_days ≤ 1 then 2 else if age_days ≤ 2 then 1 else 0

/-! ### Helper lemmas -/

theorem lowerChar_lowerChar (c : Char) : lowerChar (lowerChar c) = lowerChar c := by
  have H : ∀ q ∈ lowerPairs, lowerPairs.find? (fun r => r.1 = q.2) = none := by decide
  cases hf : lowerPairs.find? (fun p => p.1 = c) with
  | none => simp [lowerChar, hf]
  | some p =>
    have hp : p ∈ lowerPairs := List.mem_of_find?_eq_some hf
    simp [lowerChar, hf, H p hp]

theorem isPySpace_lowerChar (c : Char) : isPySpace (lowerChar c) = isPySpace c := by
  have H : ∀ q ∈ lowerPairs, isPySpace q.2 = false ∧ isPySpace q.1 = false := by decide
  cases hf : lowerPairs.find? (fun p => p.1 = c) with
  | none => simp [lowerChar, hf]
  | some p =>
    have hp : p ∈ lowerPairs := List.mem_of_find?_eq_some hf
    have hc : p.1 = c := by
      have := List.find?_some hf
      simpa using this
    rw [lowerChar, hf, (H p hp).1, ← hc, (H p hp).2]

theorem comp_isPySpace_lowerChar : (isPySpace ∘ lowerChar) = isPySpace :=
  funext fun c => by simp [Function.comp, isPySpace_lowerChar]

theorem stripList_map_lowerChar (l : List Char) :
    stripList (l.map lowerChar) = (stripList l).map lowerChar := by
  unfold stripList
  rw [List.dropWhile_map, comp_isPySpace_lowerChar, ← List.map_reverse,
    List.dropWhile_map, comp_isPySpace_lowerChar, ← List.map_reverse]

theorem map_lowerChar_map_lowerChar (l : List Char) :
    (l.map lowerChar).map lowerChar = l.map lowerChar := by
  induction l with
  | nil => rfl
  | cons c t ih => simp [lowerChar_lowerChar, ih]

theorem normalize_text_pyLower (s : String) :
    normalize_text (pyLower s) = normalize_text s := by
  show (⟨(stripList (s.data.map lowerChar)).map lowerChar⟩ : String) = _
  rw [stripList_map_lowerChar, map_lowerChar_map_lowerChar]
  rfl

theorem experienceLoop_eq_true (pref title : String) (l : List (String × List String)) :
    experienceLoop pref title l = true := by
  induction l with
  | nil => rfl
  | cons p rest ih =>
    obtain ⟨level, words⟩ := p
    simp only [experienceLoop]
    split_ifs <;> simp [ih]

theorem normalize_freq_buckets (raw : String) :
    normalize_freq raw = "daily" ∨ normalize_freq raw = "twice_weekly"
      ∨ normalize_freq raw = "weekly" := by
  unfold normalize_freq
  split_ifs <;>
    first
      | exact Or.inl rfl
      | exact Or.inr (Or.inl rfl)
      | exact Or.inr (Or.inr rfl)

/-- Fingerprints of the matches recorded by the inner loop are distinct among
themselves and from the incoming `seen` set. -/
theorem collectMatches_fp_nodup (now : Int) (sub : Subscriber) (pool : List Job) :
    ∀ seen : List String,
      ((collectMatches now sub pool seen).map (fun m => compute_job_fingerprint m.2)).Nodup
      ∧ ∀ f ∈ seen,
          f ∉ (collectMatches now sub pool seen).map (fun m => compute_job_fingerprint m.2) := by
  induction pool with
  | nil =>
    intro seen
    refine ⟨?_, fun f _ => ?_⟩
    · show (List.map _ []).Nodup
      simp
    · show f ∉ List.map _ []
      simp
  | cons job rest ih =>
    intro seen
    rw [collectMatches]
    split_ifs with h1 h2
    · exact ih seen
    · have hfp : compute_job_fingerprint job ∉ seen := by
        intro hmem
        exact h1 (List.elem_iff.mpr hmem)
      have ihrec := ih (compute_job_fingerprint job :: seen)
      refine ⟨?_, ?_⟩
      · simp only [List.map_cons, List.nodup_cons]
        exact ⟨ihrec.2 _ (List.mem_cons_self ..), ihrec.1⟩
      · intro f hf
        simp only [List.map_cons, List.mem_cons]
        rintro (rfl | hmem)
        · exact hfp hf
        · exact ihrec.2 f (List.mem_cons_of_mem _ hf) hmem
    · exact ih seen

/-! ### Concrete fixtures

A reference instant for concrete runs: `now` is 1970-01-21T00:00:00Z, i.e.
epoch second 1 728 000; all fixture timestamps are written relative to it. -/

/-- Reference instant for concrete runs. -/
def nowRef : Int := 1728000

/-- Scenario C4, posting A: a US-located remote Software Engineer role posted
today by source X. -/
def jobA : Job :=
  { title := "Software Engineer", company := "Acme", location := "USA",
    remote_scope := "country", job_roles := "software engineer",
    posted_at := "1970-01-21T00:00:00+00:00",
    ingested_at := "1970-01-21T00:00:00+00:00",
    source := "X", url := "https://boardx.example/a",
    apply_url := "https://boardx.example/a/apply" }

/-- Scenario C4, posting B: the identical job re-listed by source Y under a
different source-local id, same title, company and location. -/
def jobB : Job :=
  { jobA with
    source := "Y",
    url := "https://boardy.example/b77",
    apply_url := "https://boardy.example/b77/apply" }

/-- Scenario C4, posting C: an onsite Berlin Software Engineer role. -/
def jobC : Job :=
  { title := "Software Engineer", company := "BerlinCo",
    location := "Berlin, Germany", remote_scope := "onsite",
    job_roles := "software engineer",
    posted_at := "1970-01-21T00:00:00+00:00",
    ingested_at := "1970-01-21T00:00:00+00:00", source := "Z",
    url := "https://boardz.example/c" }

/-- Scenario C4's subscriber. -/
def subUsaSwe : Subscriber :=
  { email := "u@example.com", job_roles := "software engineer",
    location_pref := "usa", high_salary_only := "false" }

/-- A recent globally-remote posting with no further attributes; every
no-preference subscriber matches it. -/
def jobGlobal : Job :=
  { title := "Engineer", company := "Acme", location := "Anywhere",
    remote_scope := "global", posted_at := "1970-01-21T00:00:00+00:00",
    source := "X" }

/-- A due subscriber with no preferences whose sheet update will fail. -/
def subFailing : Subscriber := { email := "a@x" }

/-- A second due subscriber with no preferences, after the failing one. -/
def subSecond : Subscriber := { email := "b@x" }

/-- A posting whose `posted_at` is four days old while `ingested_at` is
`nowRef` itself: the more recent of the two timestamps is zero days old. -/
def jobStaleTimes : Job :=
  { title := "Engineer", company := "Acme", location := "Anywhere",
    remote_scope := "global", posted_at := "1970-01-17T00:00:00+00:00",
    ingested_at := "1970-01-21T00:00:00+00:00", source := "X" }

/-- A subscriber with no preferences at all. -/
def subNoPrefs : Subscriber := { email := "n@x" }

/-- A roleless posting: same title, company and location as
`jobRoleTagged` — hence the same fingerprint — but an empty `job_roles`. -/
def jobRoleless : Job :=
  { title := "Engineer", company := "Acme", location := "Anywhere",
    remote_scope := "global", job_roles := "", source := "X" }

/-- The same posting as `jobRoleless` with the role filled in, listed
second in the pool. -/
def jobRoleTagged : Job := { jobRoleless with job_roles := "software engineer", source := "Y" }

/-- A subscriber who asked only for software-engineer roles. -/
def subSweOnly : Subscriber := { email := "s@x", job_roles := "software engineer" }

/-- A posting with its title, company and location lower-cased. -/
def lowerTCL (job : Job) : Job :=
  { job with
    title := pyLower job.title,
    company := pyLower job.company,
    location := pyLower job.location }

/-! ### Claim theorems -/

/-- C1: the claim says an exception raised while processing a single
subscriber (for example during that subscriber's `last_sent_at` update) is
caught and logged and later subscribers are still evaluated.  The code of
`main` has no try/except inside the subscriber loop, so the exception
propagates to the `/api/match` handler and the run aborts: with the pool
`[jobGlobal]` and subscribers `[subFailing, subSecond]`, where only
`subFailing`'s sheet update raises, the whole run ends in the error — yet
`subSecond` alone would have been processed successfully. -/
theorem C1_subscriber_failure_aborts_the_run :
    runMain nowRef "1970-01-21T01:00:00+00:00" (fun s => !(s.email == "a@x"))
        [jobGlobal] [subFailing, subSecond] = Except.error "a@x"
  ∧ runMain nowRef "1970-01-21T01:00:00+00:00" (fun s => !(s.email == "a@x"))
        [jobGlobal] [subSecond]
      = Except.ok [{ subSecond with last_sent_at := "1970-01-21T01:00:00+00:00" }] :=
  ⟨rfl, rfl⟩

/-- C2 counterexample: for `jobStaleTimes` (stale `posted_at`, fresh
`ingested_at`) the spec's recency rule — the more recent of the two
timestamps — demands a +2 bonus, but `score_job` equals the score of the
same posting with both timestamps blank (recency component 0): the claim's
equation fails at this input. -/
theorem C2_counterexample :
    specRecencyBonus nowRef jobStaleTimes = 2
  ∧ score_job nowRef jobStaleTimes subNoPrefs =
      score_job nowRef { jobStaleTimes with posted_at := "", ingested_at := "" } subNoPrefs
  ∧ score_job nowRef jobStaleTimes subNoPrefs ≠
      score_job nowRef { jobStaleTimes with posted_at := "", ingested_at := "" } subNoPrefs
        + specRecencyBonus nowRef jobStaleTimes := by
  refine ⟨by decide, by decide, by decide⟩

/-- C2 amended: the recency component of the score is computed from
`posted_at` whenever that cell is non-empty — even when `ingested_at` is more
recent — and from `ingested_at` only when `posted_at` is empty; with that
bonus the score decomposes exactly. -/
theorem C2_amended_recency_prefers_posted (now : Int) (job : Job) (sub : Subscriber) :
    score_job now job sub =
      score_job now { job with posted_at := "", ingested_at := "" } sub
        + postedFirstRecencyBonus now job := by
  have e2 : match_location { job with posted_at := "", ingested_at := "" } sub.location_pref
      = match_location job sub.location_pref := rfl
  have e5 : match_tech_and_lang { job with posted_at := "", ingested_at := "" } sub
      = match_tech_and_lang job sub := rfl
  have e7 : match_high_salary { job with posted_at := "", ingested_at := "" } true
      = match_high_salary job true := rfl
  have hnone : parse_iso (pyOr "" (pyOr "" "")) = none := rfl
  simp only [score_job, postedFirstRecencyBonus, e2, e5, e7, hnone]
  cases hpi : parse_iso (pyOr job.posted_at (pyOr job.ingested_at "")) <;> ring

/-- C3 counterexample: `jobRoleless` and `jobRoleTagged` share a fingerprint
and `jobRoleless` comes first in the pool, yet the later posting is the one
recorded — the first occurrence failed the role filter and therefore never
marked the fingerprint as seen, so "only the first-occurring posting can be
recorded" is false. -/
theorem C3_counterexample :
    compute_job_fingerprint jobRoleless = compute_job_fingerprint jobRoleTagged
  ∧ collectMatches 0 subSweOnly [jobRoleless, jobRoleTagged] []
      = [(11, jobRoleTagged)] := by
  refine ⟨by decide, by decide⟩

/-- C3 amended: within a single subscriber's run at most one posting per
fingerprint is ever recorded — a posting whose fingerprint equals that of an
already-recorded match is discarded — but a posting whose earlier
equal-fingerprint occurrences were all filtered out can itself still be
recorded (the recorded occurrences' fingerprints are pairwise distinct). -/
theorem C3_amended_recorded_fingerprints_distinct (now : Int) (sub : Subscriber)
    (pool : List Job) :
    ((collectMatches now sub pool []).map (fun m => compute_job_fingerprint m.2)).Nodup :=
  (collectMatches_fp_nodup now sub pool []).1

/-- C4: with the subscriber preferring `usa` locations and software-engineer
roles, a pool of A (US remote, source X), B (same job from source Y) and C
(onsite Berlin) yields exactly one recommendation — A, the first seen — with
B sharing A's fingerprint (discarded as a duplicate) and C failing the
remote-scope gate (discarded as non-remote, before the per-subscriber
loop). -/
theorem C4_end_to_end :
    recentRemotePool nowRef [jobA, jobB, jobC] = [jobA, jobB]
  ∧ digestJobs nowRef (recentRemotePool nowRef [jobA, jobB, jobC]) subUsaSwe = [jobA]
  ∧ compute_job_fingerprint jobB = compute_job_fingerprint jobA
  ∧ match_remote_scope jobC = false := by
  refine ⟨by decide, by decide, by decide, by decide⟩

/-- C5: the declared frequency collapses into exactly the buckets `daily`
(the default for anything unrecognized), `twice_weekly` and `weekly`;
`is_due_to_send` is true exactly when the days elapsed since `last_sent_at`
reach the bucket's threshold (1 / 3 / 7); and a missing or unparsable
`last_sent_at` counts as 9999 elapsed days, so the subscriber is always
due. -/
theorem C5_schedule_gate (now : Int) (sub : Subscriber) :
    (normalize_freq sub.frequency = "daily" ∨ normalize_freq sub.frequency = "twice_weekly"
      ∨ normalize_freq sub.frequency = "weekly")
  ∧ (is_due_to_send now sub = true ↔
      freqThreshold (normalize_freq sub.frequency) ≤ days_since now sub.last_sent_at)
  ∧ (parse_iso sub.last_sent_at = none →
      days_since now sub.last_sent_at = 9999 ∧ is_due_to_send now sub = true) := by
  have hiff : is_due_to_send now sub = true ↔
      freqThreshold (normalize_freq sub.frequency) ≤ days_since now sub.last_sent_at := by
    unfold is_due_to_send freqThreshold
    rcases normalize_freq_buckets sub.frequency with h | h | h <;> rw [h] <;> simp
  refine ⟨normalize_freq_buckets sub.frequency, hiff, fun hnone => ?_⟩
  have hd : days_since now sub.last_sent_at = 9999 := by
    unfold days_since
    rw [hnone]
  refine ⟨hd, hiff.mpr ?_⟩
  rw [hd]
  unfold freqThreshold
  split_ifs <;> norm_num

/-- C5 witness: a subscriber with a blank `last_sent_at` counts 9999 elapsed
days and is due. -/
theorem C5_witness :
    days_since nowRef (Subscriber.last_sent_at { email := "w@x", frequency := "weekly" }) = 9999
  ∧ is_due_to_send nowRef { email := "w@x", frequency := "weekly" } = true :=
  (C5_schedule_gate nowRef { email := "w@x", frequency := "weekly" }).2.2 (by decide)

/-- C6: `match_roles` always accepts when the subscriber declared no role
preference; with a declared preference it rejects a posting whose role
resolves to empty, and otherwise accepts exactly when the posting's canonical
role is directly in the subscriber's expanded set or is a synonym of some
canonical bucket that is itself in the expanded set. -/
theorem C6_match_roles_characterization (job_roles sub_roles_raw : String) :
    match_roles job_roles sub_roles_raw = true ↔
      (sub_roles_raw = "" ∨
        (job_role_to_canonical job_roles ≠ "" ∧
          (job_role_to_canonical job_roles ∈ expand_subscriber_roles sub_roles_raw ∨
            ∃ p ∈ CANONICAL_ROLE_GROUPS,
              job_role_to_canonical job_roles ∈ p.2 ∧
              p.1 ∈ expand_subscriber_roles sub_roles_raw))) := by
  unfold match_roles
  split_ifs with h0 hc he
  · simp [h0]
  · simp [h0, hc]
  · have hmem : job_role_to_canonical job_roles ∈ expand_subscriber_roles sub_roles_raw :=
      List.elem_iff.mp he
    simp [h0, hc, hmem]
  · have hmem : job_role_to_canonical job_roles ∉ expand_subscriber_roles sub_roles_raw :=
      fun hm => he (List.elem_iff.mpr hm)
    simp only [List.any_eq_true, Bool.and_eq_true, List.elem_iff]
    constructor
    · rintro ⟨p, hp, hjc, hp1⟩
      exact Or.inr ⟨hc, Or.inr ⟨p, hp, hjc, hp1⟩⟩
    · rintro (h | ⟨-, (h | ⟨p, hp, hjc, hp1⟩)⟩)
      · exact absurd h h0
      · exact absurd h hmem
      · exact ⟨p, hp, hjc, hp1⟩

/-- C8: a subscriber for whom zero candidates survive deduplication,
filtering and the score floor is skipped with no state mutation, and running
the step twice in immediate succession still leaves the record — in
particular `last_sent_at` — unchanged. -/
theorem C8_no_survivors_no_mutation (now : Int) (nowIso : String) (pool : List Job)
    (sub : Subscriber) (h : collectMatches now sub pool [] = []) :
    processSubscriber now nowIso pool sub = sub
  ∧ processSubscriber now nowIso pool (processSubscriber now nowIso pool sub) = sub := by
  have h1 : processSubscriber now nowIso pool sub = sub := by
    unfold processSubscriber
    split_ifs <;> rfl
  exact ⟨h1, by rw [h1, h1]⟩

/-- C8 witness: the no-mutation step applied to a concrete subscriber over an
empty pool. -/
theorem C8_witness :
    processSubscriber nowRef "1970-01-21T01:00:00+00:00" [] subNoPrefs = subNoPrefs
  ∧ processSubscriber nowRef "1970-01-21T01:00:00+00:00" []
      (processSubscriber nowRef "1970-01-21T01:00:00+00:00" [] subNoPrefs) = subNoPrefs :=
  C8_no_survivors_no_mutation nowRef "1970-01-21T01:00:00+00:00" [] subNoPrefs (by decide)

/-- C9: when every filter-pipeline predicate accepts a posting for a
subscriber, the score is at least 10 (role 3 + location 2 + experience 2 +
employment 1 + tech/language 1 + company 1), hence strictly positive, so the
orchestrator's defensive `score ≤ 0` discard branch cannot fire for a
candidate that passed the pipeline. -/
theorem C9_pipeline_pass_score_ge_ten (now : Int) (job : Job) (sub : Subscriber)
    (h1 : match_location job sub.location_pref = true)
    (h2 : match_roles job.job_roles sub.job_roles = true)
    (h3 : match_experience job.seniority sub.experience_level job.title = true)
    (h4 : match_employment job.employment_type sub.employment_type = true)
    (h5 : match_high_salary job (bool_from_str sub.high_salary_only) = true)
    (h6 : match_tech_and_lang job sub = true)
    (h7 : match_company job.company sub.company_pref = true)
    (h8 : match_search_term job sub.search_term = true) :
    10 ≤ score_job now job sub ∧ ¬ score_job now job sub ≤ 0 := by
  have h10 : 10 ≤ score_job now job sub := by
    simp only [score_job, h1, h2, h3, h4, h6, h7, if_true]
    split_ifs <;> (try split) <;> (try split_ifs) <;> decide
  exact ⟨h10, by omega⟩

/-- C9 witness: a globally-remote posting and a no-preference subscriber pass
every pipeline predicate and score at least 10. -/
theorem C9_witness :
    10 ≤ score_job 0 jobRoleless subNoPrefs ∧ ¬ score_job 0 jobRoleless subNoPrefs ≤ 0 :=
  C9_pipeline_pass_score_ge_ten 0 jobRoleless subNoPrefs (by decide) (by decide) (by decide)
    (by decide) (by decide) (by decide) (by decide) (by decide)

/-- C10: when the posting's seniority field is blank, `match_experience`
always accepts — the title-keyword fallback can only accept — so the
experience filter rejects a posting only when it carries an explicit
non-blank seniority label that does not contain the (stripped, lower-cased)
preference as a substring. -/
theorem C10_blank_seniority_never_rejects (job_seniority pref_exp job_title : String) :
    (pyLower (pyStrip job_seniority) = "" →
      match_experience job_seniority pref_exp job_title = true)
  ∧ (match_experience job_seniority pref_exp job_title = false →
      pref_exp ≠ "" ∧ pyLower (pyStrip job_seniority) ≠ "" ∧
        pyContains (pyLower (pyStrip pref_exp)) (pyLower (pyStrip job_seniority)) = false) := by
  unfold match_experience
  split_ifs with h0 hs
  · simp
  · constructor
    · intro hblank
      exact absurd hblank hs
    · intro hfalse
      exact ⟨h0, hs, hfalse⟩
  · simp [experienceLoop_eq_true]

/-- C10 witness: a blank seniority passes even for a demanding preference,
and a rejection indeed exhibits a non-blank label lacking the preference. -/
theorem C10_witness :
    match_experience "  " "senior" "Staff Engineer" = true
  ∧ (match_experience "junior" "senior" "x" = false →
      ("senior" : String) ≠ "" ∧ pyLower (pyStrip "junior") ≠ "" ∧
        pyContains (pyLower (pyStrip "senior")) (pyLower (pyStrip "junior")) = false) :=
  ⟨(C10_blank_seniority_never_rejects "  " "senior" "Staff Engineer").1 (by decide),
   (C10_blank_seniority_never_rejects "junior" "senior" "x").2⟩

/-- C7: the fingerprint is case-insensitive in title, company and location —
lower-casing all three fields first leaves it unchanged — and in particular
the posting ("Remote - Engineer", "Acme", "EU") fingerprints identically to
("Engineer", "ACME", "eu"), the generic remote marker being stripped. -/
theorem C7_fingerprint_case_insensitive :
    (∀ job : Job, compute_job_fingerprint (lowerTCL job) = compute_job_fingerprint job)
  ∧ compute_job_fingerprint { title := "Remote - Engineer", company := "Acme", location := "EU" }
      = compute_job_fingerprint { title := "Engineer", company := "ACME", location := "eu" } := by
  constructor
  · intro job
    simp only [compute_job_fingerprint, lowerTCL]
    rw [normalize_text_pyLower, normalize_text_pyLower, normalize_text_pyLower]
  · decide

end AsapJobs
